import Mathlib

/-!
Verification development for the neoboy Game Boy emulator core
(gameboy crate: memory bus, cartridge header inspectors, instruction
decoder).  Machine integers are modelled as `Nat` with explicit masks
and `% 256` / `% 0x10000` where the Rust code wraps; fallible Rust
functions are modelled with `Except`.
-/

/-- Closed taxonomy of emulator errors, from `GameboyErrorKind` in
`lib.rs`.  The Rust `GameboyError` struct is a plain wrapper around its
`kind`, so we work with the kind directly. -/
inductive GameboyErrorKind where
  | CartridgeTooSmall (n : Nat)
  | MemoryLoadOutOfBounds (a n : Nat)
  | UnknownOpcodePrefix (p : Nat)
  | UnknownAluOpcodePrefix (q : Nat)
  | Unknown (s : String)
deriving DecidableEq

/-- The 64 KiB system memory, from `Memory` in `memory.rs`.  The Rust
`[u8; 0x10000]` array is modelled as the total function giving the byte
stored at each index; addresses of interest are below `0x10000` and
values below `256`. -/
structure Memory where
  data : Nat → Nat

/-- `Memory::new`: zero-initialized except `data[0xFF0F] = 0xE0`. -/
def Memory.new : Memory :=
  ⟨fun i => if i = 0xFF0F then 0xE0 else 0⟩

/-- `Memory::read_byte`: returns `data[address]`. -/
def Memory.readByte (m : Memory) (address : Nat) : Nat :=
  m.data address

/-- `Memory::write_byte`: the region switch from `memory.rs` lines
104–131, arm for arm.  The two Rust array stores of the mirrored WRAM
arms become a two-point function update; the IF arm stores
`(value & !0xE0) | 0xE0` (with `!0xE0 : u8 = 0xFF ^^^ 0xE0`); the
unused region drops the write; every other address stores `value`.
Note the source has no arm for `0x0000..=0x7FFF`, so ROM-region writes
take the default arm. -/
def Memory.writeByte (m : Memory) (address value : Nat) : Memory :=
  ⟨fun i =>
    if 0xC000 ≤ address ∧ address ≤ 0xDDFF then
      (if i = address ∨ i = address + 0x2000 then value else m.data i)
    else if 0xE000 ≤ address ∧ address ≤ 0xFDFF then
      (if i = address ∨ i = address - 0x2000 then value else m.data i)
    else if 0xFEA0 ≤ address ∧ address ≤ 0xFEFF then
      m.data i
    else if address = 0xFF0F then
      (if i = address then value &&& (0xFF ^^^ 0xE0) ||| 0xE0 else m.data i)
    else
      (if i = address then value else m.data i)⟩

/-- `Memory::load`: fails with `MemoryLoadOutOfBounds(start, size)` iff
the u16 `start_address.checked_add(size as Address)` overflows, i.e.
iff `start + (size % 2^16) > 0xFFFF`; otherwise copies the slice into
`data[start..start+size]` and returns `Ok`.  (The in-range copy is the
slice-assignment semantics; out-of-slice panics of the Rust code are
not modelled, they are outside the returned-error contract.) -/
def Memory.load (m : Memory) (data : List Nat) (start_address size : Nat) :
    Except GameboyErrorKind Memory :=
  if start_address + size % 0x10000 ≤ 0xFFFF then
    Except.ok ⟨fun i =>
      if start_address ≤ i ∧ i < start_address + size then
        data.getD (i - start_address) 0
      else m.data i⟩
  else
    Except.error (GameboyErrorKind.MemoryLoadOutOfBounds start_address size)

/-- 8-bit register constants, from `Reg8` in `operations.rs`. -/
inductive Reg8 where
  | B
  | C
  | D
  | E
  | H
  | L
  | A
deriving DecidableEq

/-- 16-bit register constants, from `Reg16` in `operations.rs`. -/
inductive Reg16 where
  | BC
  | DE
  | HL
  | SP
  | AF
deriving DecidableEq

/-- Jump conditions, from `Condition` in `operations.rs`. -/
inductive Condition where
  | Z
  | NZ
  | C
  | NC
deriving DecidableEq

/-- All CPU operations, from `Opcode` in `operations.rs`.  `Imm8` and
`Imm16` are unsigned bytes/words (`Nat`); `Offset8` is a signed 8-bit
offset (`Int`). -/
inductive Opcode where
  | Adc8AccHl
  | Adc8Imm (i : Nat)
  | Adc8Reg (r : Reg8)
  | Add16HlReg (r : Reg16)
  | Add8AccHl
  | Add8Imm (i : Nat)
  | Add8Reg (r : Reg8)
  | AddSp (o : Int)
  | And8AccHl
  | And8Imm (i : Nat)
  | And8Reg (r : Reg8)
  | Call (i : Nat)
  | CallCond (c : Condition) (i : Nat)
  | Ccf
  | Cp8AccHl
  | Cp8Imm (i : Nat)
  | Cp8Reg (r : Reg8)
  | Cpl
  | Daa
  | Dec16Reg (r : Reg16)
  | Dec8MemHl
  | Dec8Reg (r : Reg8)
  | Di
  | Ei
  | Inc16Reg (r : Reg16)
  | Inc8MemHl
  | Inc8Reg (r : Reg8)
  | Jp (c : Condition) (i : Nat)
  | JpHl
  | JpImm (i : Nat)
  | Jr (c : Condition) (o : Int)
  | Ld16RegImm (r : Reg16) (i : Nat)
  | Ld8AccMem (r : Reg16)
  | Ld8AccMemImm (i : Nat)
  | St8MemImmAcc (i : Nat)
  | Ld8RegImm (r : Reg8) (i : Nat)
  | Ld8RegMemHl (r : Reg8)
  | Ld8RegReg (r s : Reg8)
  | LdHlSp (o : Int)
  | LdSpHl
  | LdcAccMem
  | LdcMemAcc
  | LdhAccMem (i : Nat)
  | LdhMemAcc (i : Nat)
  | Nop
  | Or8AccHl
  | Or8Imm (i : Nat)
  | Or8Reg (r : Reg8)
  | Pop (r : Reg16)
  | Push (r : Reg16)
  | Ret
  | RetCond (c : Condition)
  | Reti
  | Rla
  | Rlca
  | Rra
  | Rrca
  | Rst (i : Nat)
  | Sbc8AccHl
  | Sbc8Imm (i : Nat)
  | Sbc8Reg (r : Reg8)
  | Scf
  | St16MemImmReg (i : Nat) (r : Reg16)
  | St16MemSp (i : Nat)
  | St8MemRegAcc (r : Reg16)
  | Stop
  | Sub8AccHl
  | Sub8Imm (i : Nat)
  | Sub8Reg (r : Reg8)
  | Xor8AccHl
  | Xor8Imm (i : Nat)
  | Xor8Reg (r : Reg8)

/-- A single decoded CPU operation, from `Operation` in
`operations.rs`.  The Rust field `prefix` (a Lean keyword) is called
`prefixByte` here. -/
structure Operation where
  opcode : Opcode
  prefixByte : Nat

/-- Embeds `prefix_into_reg8_1`: bits 5..3 of the opcode byte. -/
def intoReg8_1 (p : Nat) : Reg8 :=
  match (p >>> 3) &&& 0x07 with
  | 0 => Reg8.B
  | 1 => Reg8.C
  | 2 => Reg8.D
  | 3 => Reg8.E
  | 4 => Reg8.H
  | 5 => Reg8.L
  | _ => Reg8.A

/-- Embeds `prefix_into_reg8_2`: bits 2..0 of the opcode byte. -/
def intoReg8_2 (p : Nat) : Reg8 :=
  match p &&& 0x07 with
  | 0 => Reg8.B
  | 1 => Reg8.C
  | 2 => Reg8.D
  | 3 => Reg8.E
  | 4 => Reg8.H
  | 5 => Reg8.L
  | _ => Reg8.A

/-- Embeds `prefix_into_reg16_1`: bits 5..4 → BC, DE, HL, SP. -/
def intoReg16_1 (p : Nat) : Reg16 :=
  match (p >>> 4) &&& 0x03 with
  | 0 => Reg16.BC
  | 1 => Reg16.DE
  | 2 => Reg16.HL
  | _ => Reg16.SP

/-- Embeds `prefix_into_reg16_2`: bits 5..4 → BC, DE, HL (HL± forms). -/
def intoReg16_2 (p : Nat) : Reg16 :=
  match (p >>> 4) &&& 0x03 with
  | 0 => Reg16.BC
  | 1 => Reg16.DE
  | _ => Reg16.HL

/-- Embeds `prefix_into_reg16_3`: bits 5..4 → BC, DE, HL, AF. -/
def intoReg16_3 (p : Nat) : Reg16 :=
  match (p >>> 4) &&& 0x03 with
  | 0 => Reg16.BC
  | 1 => Reg16.DE
  | 2 => Reg16.HL
  | _ => Reg16.AF

/-- Embeds `prefix_into_cond`: bits 4..3 → NZ, Z, NC, C. -/
def intoCond (p : Nat) : Condition :=
  match (p >>> 3) &&& 0x03 with
  | 0 => Condition.NZ
  | 1 => Condition.Z
  | 2 => Condition.NC
  | _ => Condition.C

/-- The Rust cast `u8 as i8`, used for the `s8` (signed offset)
immediates. -/
def u8AsI8 (v : Nat) : Int :=
  if v < 128 then (v : Int) else (v : Int) - 256

/-- Modelled from the spec: `Memory::read_word` is declared in the
repository (the decoder calls it for 16-bit immediates) but its body is
not under `src/`; §4.2–4.3 of the spec fix it as the little-endian
composition `make_u16(read_byte(A+1), read_byte(A))`. -/
def Memory.readWord (m : Memory) (address : Nat) : Nat :=
  (m.readByte (address + 1)) <<< 8 ||| m.readByte address

/-- `Operation::from_alu_prefix`: the CB-prefixed table is a stub that
always fails with `UnknownAluOpcodePrefix` of the byte following
`0xCB`. -/
def Operation.fromAluPrefix (q : Nat) : Except GameboyErrorKind Operation :=
  Except.error (GameboyErrorKind.UnknownAluOpcodePrefix q)

/-- The dispatch on the first byte `p`, from the `match prefix` in
`Operation::from_memory` (operations.rs lines 224–331), arm for arm in
source order.  `b1` is the byte at `pc+1` (the `imm8` and `s8` reads
and the CB-table lookup), `w` is the word at `pc+1` (the `imm16`
reads); the Rust macro reads them lazily per arm, which is
indistinguishable here since reads are pure. -/
def Operation.decode (p b1 w : Nat) : Except GameboyErrorKind Operation :=
  if p = 0x00 then .ok ⟨.Nop, p⟩
  else if p ∈ [0x01, 0x11, 0x21, 0x31] then .ok ⟨.Ld16RegImm (intoReg16_1 p) w, p⟩
  else if p ∈ [0x02, 0x12, 0x22, 0x32] then .ok ⟨.St8MemRegAcc (intoReg16_2 p), p⟩
  else if p ∈ [0x03, 0x13, 0x23, 0x33] then .ok ⟨.Inc16Reg (intoReg16_1 p), p⟩
  else if p ∈ [0x04, 0x0C, 0x14, 0x1C, 0x24, 0x2C, 0x3C] then .ok ⟨.Inc8Reg (intoReg8_1 p), p⟩
  else if p ∈ [0x05, 0x0D, 0x15, 0x1D, 0x25, 0x2D, 0x3D] then .ok ⟨.Dec8Reg (intoReg8_1 p), p⟩
  else if p ∈ [0x06, 0x0E, 0x16, 0x1E, 0x26, 0x2E, 0x3E] then .ok ⟨.Ld8RegImm (intoReg8_1 p) b1, p⟩
  else if p = 0x07 then .ok ⟨.Rlca, p⟩
  else if p = 0x08 then .ok ⟨.St16MemSp w, p⟩
  else if p ∈ [0x09, 0x19, 0x29, 0x39] then .ok ⟨.Add16HlReg (intoReg16_1 p), p⟩
  else if p ∈ [0x0A, 0x1A, 0x2A, 0x3A] then .ok ⟨.Ld8AccMem (intoReg16_2 p), p⟩
  else if p ∈ [0x0B, 0x1B, 0x2B, 0x3B] then .ok ⟨.Dec16Reg (intoReg16_1 p), p⟩
  else if p = 0x0F then .ok ⟨.Rrca, p⟩
  else if p = 0x10 then .ok ⟨.Stop, p⟩
  else if p = 0x17 then .ok ⟨.Rla, p⟩
  else if p = 0x1F then .ok ⟨.Rra, p⟩
  else if p ∈ [0x20, 0x28, 0x30, 0x38] then .ok ⟨.Jr (intoCond p) (u8AsI8 b1), p⟩
  else if p = 0x27 then .ok ⟨.Daa, p⟩
  else if p = 0x2F then .ok ⟨.Cpl, p⟩
  else if p = 0x34 then .ok ⟨.Inc8MemHl, p⟩
  else if p = 0x35 then .ok ⟨.Dec8MemHl, p⟩
  else if p = 0x36 then .ok ⟨.Scf, p⟩
  else if p = 0x3F then .ok ⟨.Ccf, p⟩
  else if p ∈ [0x40, 0x41, 0x42, 0x43, 0x44, 0x45, 0x47,
               0x48, 0x49, 0x4A, 0x4B, 0x4C, 0x4D, 0x4F,
               0x50, 0x51, 0x52, 0x53, 0x54, 0x55, 0x57,
               0x58, 0x59, 0x5A, 0x5B, 0x5C, 0x5D, 0x5F,
               0x60, 0x61, 0x62, 0x63, 0x64, 0x65, 0x67,
               0x68, 0x69, 0x6A, 0x6B, 0x6C, 0x6D, 0x6F,
               0x78, 0x79, 0x7A, 0x7B, 0x7C, 0x7D, 0x7F] then
    .ok ⟨.Ld8RegReg (intoReg8_1 p) (intoReg8_2 p), p⟩
  else if p ∈ [0x80, 0x81, 0x82, 0x83, 0x84, 0x85, 0x87] then .ok ⟨.Add8Reg (intoReg8_2 p), p⟩
  else if p = 0x86 then .ok ⟨.Add8AccHl, p⟩
  else if p ∈ [0x88, 0x89, 0x8A, 0x8B, 0x8C, 0x8D, 0x8F] then .ok ⟨.Adc8Reg (intoReg8_2 p), p⟩
  else if p = 0x8E then .ok ⟨.Adc8AccHl, p⟩
  else if p ∈ [0x90, 0x91, 0x92, 0x93, 0x94, 0x95, 0x97] then .ok ⟨.Sub8Reg (intoReg8_2 p), p⟩
  else if p = 0x96 then .ok ⟨.Sub8AccHl, p⟩
  else if p ∈ [0x98, 0x99, 0x9A, 0x9B, 0x9C, 0x9D, 0x9F] then .ok ⟨.Sbc8Reg (intoReg8_2 p), p⟩
  else if p = 0x9E then .ok ⟨.Sbc8AccHl, p⟩
  else if p ∈ [0xA0, 0xA1, 0xA2, 0xA3, 0xA4, 0xA5, 0xA7] then .ok ⟨.And8Reg (intoReg8_2 p), p⟩
  else if p = 0xA6 then .ok ⟨.And8AccHl, p⟩
  else if p ∈ [0xA8, 0xA9, 0xAA, 0xAB, 0xAC, 0xAD, 0xAF] then .ok ⟨.Xor8Reg (intoReg8_2 p), p⟩
  else if p = 0xAE then .ok ⟨.Xor8AccHl, p⟩
  else if p ∈ [0xB0, 0xB1, 0xB2, 0xB3, 0xB4, 0xB5, 0xB7] then .ok ⟨.Or8Reg (intoReg8_2 p), p⟩
  else if p = 0xB6 then .ok ⟨.Or8AccHl, p⟩
  else if p ∈ [0xB8, 0xB9, 0xBA, 0xBB, 0xBC, 0xBD, 0xBF] then .ok ⟨.Cp8Reg (intoReg8_2 p), p⟩
  else if p = 0xBE then .ok ⟨.Cp8AccHl, p⟩
  else if p ∈ [0xC0, 0xC8, 0xD0, 0xD8] then .ok ⟨.RetCond (intoCond p), p⟩
  else if p ∈ [0xC1, 0xD1, 0xE1, 0xF1] then .ok ⟨.Pop (intoReg16_3 p), p⟩
  else if p ∈ [0xC2, 0xCA, 0xD2, 0xDA] then .ok ⟨.Jp (intoCond p) w, p⟩
  else if p = 0xC3 then .ok ⟨.JpImm w, p⟩
  else if p ∈ [0xC4, 0xCC, 0xD4, 0xDC] then .ok ⟨.CallCond (intoCond p) w, p⟩
  else if p ∈ [0xC5, 0xD5, 0xE5, 0xF5] then .ok ⟨.Push (intoReg16_3 p), p⟩
  else if p = 0xC6 then .ok ⟨.Add8Imm b1, p⟩
  else if p ∈ [0xC7, 0xCF, 0xD7, 0xDF, 0xE7, 0xEF, 0xF7, 0xFF] then .ok ⟨.Rst (p &&& 0x38), p⟩
  else if p = 0xC9 then .ok ⟨.Ret, p⟩
  else if p = 0xCB then Operation.fromAluPrefix b1
  else if p = 0xCD then .ok ⟨.Call w, p⟩
  else if p = 0xCE then .ok ⟨.Adc8Imm b1, p⟩
  else if p = 0xD6 then .ok ⟨.Sub8Imm b1, p⟩
  else if p = 0xD9 then .ok ⟨.Reti, p⟩
  else if p = 0xDE then .ok ⟨.Sbc8Imm b1, p⟩
  else if p = 0xE0 then .ok ⟨.LdhMemAcc b1, p⟩
  else if p = 0xE2 then .ok ⟨.LdcMemAcc, p⟩
  else if p = 0xE6 then .ok ⟨.And8Imm b1, p⟩
  else if p = 0xE8 then .ok ⟨.AddSp (u8AsI8 b1), p⟩
  else if p = 0xE9 then .ok ⟨.JpHl, p⟩
  else if p = 0xEA then .ok ⟨.St8MemImmAcc w, p⟩
  else if p = 0xEE then .ok ⟨.Xor8Imm b1, p⟩
  else if p = 0xF0 then .ok ⟨.LdhAccMem b1, p⟩
  else if p = 0xF2 then .ok ⟨.LdcAccMem, p⟩
  else if p = 0xF3 then .ok ⟨.Di, p⟩
  else if p = 0xF6 then .ok ⟨.Or8Imm b1, p⟩
  else if p = 0xF8 then .ok ⟨.LdHlSp (u8AsI8 b1), p⟩
  else if p = 0xF9 then .ok ⟨.LdSpHl, p⟩
  else if p = 0xFA then .ok ⟨.Ld8AccMemImm w, p⟩
  else if p = 0xFB then .ok ⟨.Ei, p⟩
  else if p = 0xFE then .ok ⟨.Cp8Imm b1, p⟩
  else .error (GameboyErrorKind.UnknownOpcodePrefix p)

/-- `Operation::from_memory`: reads the byte at `pc` and dispatches. -/
def Operation.fromMemory (pc : Nat) (m : Memory) : Except GameboyErrorKind Operation :=
  Operation.decode (m.readByte pc) (m.readByte (pc + 1)) (m.readWord (pc + 1))

/-- The memory image used by the coverage claims: bytes `p, 0x12, 0x34`
at addresses `0, 1, 2` (and zero elsewhere). -/
def opFragment (p : Nat) : Memory :=
  ⟨fun i => if i = 0 then p else if i = 1 then 0x12 else if i = 2 then 0x34 else 0⟩

/-- Whether a decode attempt produced an operation. -/
def isOkResult (r : Except GameboyErrorKind Operation) : Bool :=
  match r with
  | .ok _ => true
  | .error _ => false

/-- The byte carried by an `UnknownOpcodePrefix` failure, if that is
what the decode attempt produced. -/
def unknownOpcodeErrByte (r : Except GameboyErrorKind Operation) : Option Nat :=
  match r with
  | .error (GameboyErrorKind.UnknownOpcodePrefix q) => some q
  | _ => none

/-- The bytes the source decoder actually rejects with
`UnknownOpcodePrefix`: the eleven LR35902 holes of the claim plus
`0x18` (JR r8), `0x37` (SCF, displaced by the `0x36` miscoding), the
`LD r,(HL)` column `0x46/0x4E/0x56/0x5E/0x66/0x6E/0x7E`, and
`0x70..=0x77` (`LD (HL),r` and HALT), none of which have arms in the
source's match. -/
def decoderGapBytes : List Nat :=
  [0x18, 0x37, 0x46, 0x4E, 0x56, 0x5E, 0x66, 0x6E,
   0x70, 0x71, 0x72, 0x73, 0x74, 0x75, 0x76, 0x77, 0x7E,
   0xD3, 0xDB, 0xDD, 0xE3, 0xE4, 0xEB, 0xEC, 0xED, 0xF4, 0xFC, 0xFD]

/-- A loaded Gameboy cartridge, from `Cartridge` in `cartridge.rs`.
The `Vec<u8>` is modelled by the byte stored at each index (`data`)
together with the vector's length (`size`); theorems assume
`0x8000 ≤ size` (checked by `Cartridge::new`) and byte-valued entries
where the claim needs them. -/
structure Cartridge where
  data : Nat → Nat
  size : Nat

/-- `Cartridge::has_valid_header_checksum`: seed an 8-bit accumulator
with `0x19`, wrapping-add the bytes at `0x0134..=0x014D` (26
addresses), and compare with zero.  `u8::wrapping_add` is `% 256`. -/
def Cartridge.hasValidHeaderChecksum (c : Cartridge) : Bool :=
  (List.range' 0x0134 26).foldl (fun checksum index => (checksum + c.data index) % 256) 0x19 == 0

/-- The byte list built by the loop in `Cartridge::name`: the bytes at
`0x0134..=0x0143`, truncated at the first zero byte. -/
def Cartridge.nameBytes (c : Cartridge) : List Nat :=
  ((List.range' 0x0134 16).map c.data).takeWhile (fun ch => ch != 0)

/-- A UTF-8 continuation byte (`0x80..=0xBF`). -/
def isUtf8Cont (b : Nat) : Bool :=
  if 0x80 ≤ b ∧ b ≤ 0xBF then true else false

/-- Validity of a byte sequence as UTF-8, the check performed by Rust's
`str::from_utf8` (RFC 3629: no overlong forms, no surrogates, max
U+10FFFF).  Rust's standard library is not part of this repository, so
this embeds the documented semantics of `from_utf8`. -/
def validUtf8 (l : List Nat) : Bool :=
  match l with
  | [] => true
  | a :: rest =>
    if a ≤ 0x7F then validUtf8 rest
    else if a < 0xC2 then false
    else if a ≤ 0xDF then
      match rest with
      | b :: rest2 => isUtf8Cont b && validUtf8 rest2
      | [] => false
    else if a ≤ 0xEF then
      match rest with
      | b :: c :: rest3 =>
        (if a = 0xE0 then (if 0xA0 ≤ b ∧ b ≤ 0xBF then true else false)
         else if a = 0xED then (if 0x80 ≤ b ∧ b ≤ 0x9F then true else false)
         else isUtf8Cont b) && isUtf8Cont c && validUtf8 rest3
      | _ => false
    else if a ≤ 0xF4 then
      match rest with
      | b :: c :: d :: rest4 =>
        (if a = 0xF0 then (if 0x90 ≤ b ∧ b ≤ 0xBF then true else false)
         else if a = 0xF4 then (if 0x80 ≤ b ∧ b ≤ 0x8F then true else false)
         else isUtf8Cont b) && isUtf8Cont c && isUtf8Cont d && validUtf8 rest4
      | _ => false
    else false

/-- `Cartridge::name`: collects `nameBytes` and then applies
`str::from_utf8(...).unwrap()`.  The `unwrap` panic on invalid UTF-8 is
modelled as `none`; on success the returned string is exactly the
collected byte sequence. -/
def Cartridge.name (c : Cartridge) : Option (List Nat) :=
  if validUtf8 c.nameBytes then some c.nameBytes else none

/-- A concrete cartridge with a valid header checksum: byte `0xE7` at
`0x014D`, zero elsewhere (`0x19 + 0xE7 = 0x100 ≡ 0 mod 256`). -/
def sampleCartridge : Cartridge :=
  ⟨fun i => if i = 0x014D then 0xE7 else 0, 0x8000⟩

/-- C1. The claim states that for every `A ∈ [0x0000, 0x7FFF]` the ROM
region is read-only: `write_byte(A, V)` leaves `read_byte(A)`
unchanged.  The source's `write_byte` has no ROM arm, so such writes
take the default arm and are stored: `read_byte(A)` returns `V`
afterwards, contradicting the claim (and the repository's own test
`test_cartridge_rom_readwrite`, which expects the write at `0x0000` to
be dropped). -/
theorem rom_region_write_goes_through (m : Memory) (a v : Nat)
    (ha : a ≤ 0x7FFF) : (m.writeByte a v).readByte a = v := by
  simp only [Memory.writeByte, Memory.readByte]
  split_ifs with h1 h2 h3 h4 h5 <;> first | rfl | omega

/-- Witness for C1's theorem: the test's scenario, `write_byte(0x0000,
0x34)` on a fresh memory makes `read_byte(0x0000)` return `0x34`
(initially it returned 0). -/
theorem rom_region_write_goes_through_witness :
    (Memory.new.writeByte 0x0000 0x34).readByte 0x0000 = 0x34 :=
  rom_region_write_goes_through Memory.new 0x0000 0x34 (by decide)

/-- C3. WRAM echo: writes in `[0xC000, 0xDDFF]` land at the address and
its `+0x2000` echo; writes in `[0xE000, 0xFDFF]` land at the address
and its `-0x2000` partner. -/
theorem wram_echo_write (m : Memory) (a v : Nat) :
    ((0xC000 ≤ a ∧ a ≤ 0xDDFF) →
      (m.writeByte a v).readByte a = v ∧
      (m.writeByte a v).readByte (a + 0x2000) = v) ∧
    ((0xE000 ≤ a ∧ a ≤ 0xFDFF) →
      (m.writeByte a v).readByte a = v ∧
      (m.writeByte a v).readByte (a - 0x2000) = v) := by
  constructor
  · intro h
    simp only [Memory.writeByte, Memory.readByte]
    constructor <;> (split_ifs <;> first | rfl | omega | simp_all)
  · intro h
    simp only [Memory.writeByte, Memory.readByte]
    constructor <;> (split_ifs <;> first | rfl | omega | simp_all)

/-- Witness for C3's theorem: writing `0xAB` at `0xC100` is visible at
`0xC100` and at its echo `0xE100`; writing `0xCD` at `0xE200` is
visible at `0xE200` and back at `0xC200`. -/
theorem wram_echo_write_witness :
    (Memory.new.writeByte 0xC100 0xAB).readByte (0xC100 + 0x2000) = 0xAB ∧
    (Memory.new.writeByte 0xE200 0xCD).readByte (0xE200 - 0x2000) = 0xCD :=
  ⟨((wram_echo_write Memory.new 0xC100 0xAB).1 (by decide)).2,
   ((wram_echo_write Memory.new 0xE200 0xCD).2 (by decide)).2⟩

/-- C6. The interrupt-flag register `0xFF0F`: reads `0xE0` at
construction, and a write of `V` stores `(V & 0x1F) | 0xE0` — only the
low 5 bits are writable, the upper 3 always read as 1. -/
theorem interrupt_flag_masking :
    Memory.new.readByte 0xFF0F = 0xE0 ∧
    ∀ (m : Memory) (v : Nat), v < 256 →
      (m.writeByte 0xFF0F v).readByte 0xFF0F = (v &&& 0x1F) ||| 0xE0 := by
  refine ⟨rfl, fun m v _ => ?_⟩
  have hmask : (0xFF ^^^ 0xE0 : Nat) = 0x1F := by decide
  simp only [Memory.writeByte, Memory.readByte, hmask]
  norm_num

/-- Witness for C6's theorem: writing `0x0F` to `0xFF0F` reads back
`0xEF`. -/
theorem interrupt_flag_masking_witness :
    (Memory.new.writeByte 0xFF0F 0x0F).readByte 0xFF0F = (0x0F &&& 0x1F) ||| 0xE0 :=
  interrupt_flag_masking.2 Memory.new 0x0F (by decide)

/-- C9. Frame effect of `write_byte`: every index other than the
written address and its echo partner (`A+0x2000` when
`A ∈ [0xC000, 0xDDFF]`, `A-0x2000` when `A ∈ [0xE000, 0xFDFF]`) reads
the same before and after, and a write in `[0xFEA0, 0xFEFF]` leaves the
whole array unchanged. -/
theorem write_byte_frame (m : Memory) (a v : Nat) :
    (∀ i, i ≠ a →
      ¬(0xC000 ≤ a ∧ a ≤ 0xDDFF ∧ i = a + 0x2000) →
      ¬(0xE000 ≤ a ∧ a ≤ 0xFDFF ∧ i = a - 0x2000) →
      (m.writeByte a v).readByte i = m.readByte i) ∧
    ((0xFEA0 ≤ a ∧ a ≤ 0xFEFF) → m.writeByte a v = m) := by
  constructor
  · intro i hia h1 h2
    simp only [Memory.writeByte, Memory.readByte]
    split_ifs <;> first | rfl | omega
  · intro h
    have : (m.writeByte a v).data = m.data := by
      funext i
      simp only [Memory.writeByte]
      split_ifs <;> first | rfl | omega
    cases m
    simpa [Memory.writeByte] using this

/-- Witness for C9's theorem: writing at `0xC000` does not disturb
index 0, and a write into the unused region `0xFEA0` leaves memory
untouched. -/
theorem write_byte_frame_witness :
    (Memory.new.writeByte 0xC000 5).readByte 0 = Memory.new.readByte 0 ∧
    Memory.new.writeByte 0xFEA0 7 = Memory.new :=
  ⟨(write_byte_frame Memory.new 0xC000 5).1 0 (by decide) (by decide) (by decide),
   (write_byte_frame Memory.new 0xFEA0 7).2 (by decide)⟩

/-- C4 counterexample. The claim says `load` errs iff
`start + size > 0x10000` over unbounded integers, so the doctest input
`start = 0xFFFA`, `size = 6` (sum exactly `0x10000`) should succeed.
The code's u16 `checked_add` overflows there and `load` returns
`MemoryLoadOutOfBounds(0xFFFA, 6)` — exactly what the source's own doc
example asserts. -/
theorem load_boundary_counterexample :
    (Memory.new.load [1, 2, 3, 4, 5, 6] 0xFFFA 6 =
      Except.error (GameboyErrorKind.MemoryLoadOutOfBounds 0xFFFA 6)) ∧
    ¬ (0xFFFA + 6 > 0x10000) := by
  constructor
  · rfl
  · decide

/-- C4 as amended: for `start ≤ 0xFFFF` (an `Address` is u16), `load`
fails with `MemoryLoadOutOfBounds(start, size)` iff
`start + (size mod 2^16) > 0xFFFF` — the u16 checked add of `start` and
`size as u16` overflows.  In particular `start + size = 0x10000` with
`size ≤ 0xFFFF` fails. -/
theorem load_out_of_bounds_iff (m : Memory) (data : List Nat)
    (start size : Nat) (_hs : start ≤ 0xFFFF) :
    (∃ e, m.load data start size = Except.error e) ↔
      0xFFFF < start + size % 0x10000 := by
  unfold Memory.load
  split_ifs with h
  · constructor
    · rintro ⟨e, he⟩
      exact absurd he (by simp)
    · intro hlt
      omega
  · constructor
    · intro _
      omega
    · intro _
      exact ⟨_, rfl⟩

/-- Witness for C4's amended theorem at the doctest input. -/
theorem load_out_of_bounds_iff_witness :
    0xFFFF < 0xFFFA + 6 % 0x10000 :=
  (load_out_of_bounds_iff Memory.new [1, 2, 3, 4, 5, 6] 0xFFFA 6
    (by decide)).mp ⟨GameboyErrorKind.MemoryLoadOutOfBounds 0xFFFA 6, rfl⟩

/-- C5 / code evaluation.  The claim (following the ISA and spec §9.3)
says byte `0x36` decodes to `Ld8MemHlImm` carrying the byte at `pc+1`.
The source's decoder instead maps `0x36` to `Scf` (and its `Opcode`
enum has no `Ld8MemHlImm` variant at all): on the image
`[0x36, 0x12, 0x34]` it returns `Ok(Scf)` with no immediate. -/
theorem decode_0x36_is_scf :
    Operation.fromMemory 0 (opFragment 0x36) = Except.ok ⟨Opcode.Scf, 0x36⟩ := by
  rfl

/-- Helper: every `Ok` arm of the dispatch carries the dispatched byte
as the operation's prefix byte. -/
theorem decode_ok_prefixByte (p b1 w : Nat) (op : Operation)
    (h : Operation.decode p b1 w = Except.ok op) : op.prefixByte = p := by
  unfold Operation.decode Operation.fromAluPrefix at h
  by_cases h1 : p = 0x00
  · rw [if_pos h1] at h
    injection h with hx
    subst hx
    rfl
  rw [if_neg h1] at h
  by_cases h2 : p ∈ [0x01, 0x11, 0x21, 0x31]
  · rw [if_pos h2] at h
    injection h with hx
    subst hx
    rfl
  rw [if_neg h2] at h
  by_cases h3 : p ∈ [0x02, 0x12, 0x22, 0x32]
  · rw [if_pos h3] at h
    injection h with hx
    subst hx
    rfl
  rw [if_neg h3] at h
  by_cases h4 : p ∈ [0x03, 0x13, 0x23, 0x33]
  · rw [if_pos h4] at h
    injection h with hx
    subst hx
    rfl
  rw [if_neg h4] at h
  by_cases h5 : p ∈ [0x04, 0x0C, 0x14, 0x1C, 0x24, 0x2C, 0x3C]
  · rw [if_pos h5] at h
    injection h with hx
    subst hx
    rfl
  rw [if_neg h5] at h
  by_cases h6 : p ∈ [0x05, 0x0D, 0x15, 0x1D, 0x25, 0x2D, 0x3D]
  · rw [if_pos h6] at h
    injection h with hx
    subst hx
    rfl
  rw [if_neg h6] at h
  by_cases h7 : p ∈ [0x06, 0x0E, 0x16, 0x1E, 0x26, 0x2E, 0x3E]
  · rw [if_pos h7] at h
    injection h with hx
    subst hx
    rfl
  rw [if_neg h7] at h
  by_cases h8 : p = 0x07
  · rw [if_pos h8] at h
    injection h with hx
    subst hx
    rfl
  rw [if_neg h8] at h
  by_cases h9 : p = 0x08
  · rw [if_pos h9] at h
    injection h with hx
    subst hx
    rfl
  rw [if_neg h9] at h
  by_cases h10 : p ∈ [0x09, 0x19, 0x29, 0x39]
  · rw [if_pos h10] at h
    injection h with hx
    subst hx
    rfl
  rw [if_neg h10] at h
  by_cases h11 : p ∈ [0x0A, 0x1A, 0x2A, 0x3A]
  · rw [if_pos h11] at h
    injection h with hx
    subst hx
    rfl
  rw [if_neg h11] at h
  by_cases h12 : p ∈ [0x0B, 0x1B, 0x2B, 0x3B]
  · rw [if_pos h12] at h
    injection h with hx
    subst hx
    rfl
  rw [if_neg h12] at h
  by_cases h13 : p = 0x0F
  · rw [if_pos h13] at h
    injection h with hx
    subst hx
    rfl
  rw [if_neg h13] at h
  by_cases h14 : p = 0x10
  · rw [if_pos h14] at h
    injection h with hx
    subst hx
    rfl
  rw [if_neg h14] at h
  by_cases h15 : p = 0x17
  · rw [if_pos h15] at h
    injection h with hx
    subst hx
    rfl
  rw [if_neg h15] at h
  by_cases h16 : p = 0x1F
  · rw [if_pos h16] at h
    injection h with hx
    subst hx
    rfl
  rw [if_neg h16] at h
  by_cases h17 : p ∈ [0x20, 0x28, 0x30, 0x38]
  · rw [if_pos h17] at h
    injection h with hx
    subst hx
    rfl
  rw [if_neg h17] at h
  by_cases h18 : p = 0x27
  · rw [if_pos h18] at h
    injection h with hx
    subst hx
    rfl
  rw [if_neg h18] at h
  by_cases h19 : p = 0x2F
  · rw [if_pos h19] at h
    injection h with hx
    subst hx
    rfl
  rw [if_neg h19] at h
  by_cases h20 : p = 0x34
  · rw [if_pos h20] at h
    injection h with hx
    subst hx
    rfl
  rw [if_neg h20] at h
  by_cases h21 : p = 0x35
  · rw [if_pos h21] at h
    injection h with hx
    subst hx
    rfl
  rw [if_neg h21] at h
  by_cases h22 : p = 0x36
  · rw [if_pos h22] at h
    injection h with hx
    subst hx
    rfl
  rw [if_neg h22] at h
  by_cases h23 : p = 0x3F
  · rw [if_pos h23] at h
    injection h with hx
    subst hx
    rfl
  rw [if_neg h23] at h
  by_cases h24 : p ∈ [0x40, 0x41, 0x42, 0x43, 0x44, 0x45, 0x47, 0x48, 0x49, 0x4A, 0x4B, 0x4C, 0x4D, 0x4F, 0x50, 0x51, 0x52, 0x53, 0x54, 0x55, 0x57, 0x58, 0x59, 0x5A, 0x5B, 0x5C, 0x5D, 0x5F, 0x60, 0x61, 0x62, 0x63, 0x64, 0x65, 0x67, 0x68, 0x69, 0x6A, 0x6B, 0x6C, 0x6D, 0x6F, 0x78, 0x79, 0x7A, 0x7B, 0x7C, 0x7D, 0x7F]
  · rw [if_pos h24] at h
    injection h with hx
    subst hx
    rfl
  rw [if_neg h24] at h
  by_cases h25 : p ∈ [0x80, 0x81, 0x82, 0x83, 0x84, 0x85, 0x87]
  · rw [if_pos h25] at h
    injection h with hx
    subst hx
    rfl
  rw [if_neg h25] at h
  by_cases h26 : p = 0x86
  · rw [if_pos h26] at h
    injection h with hx
    subst hx
    rfl
  rw [if_neg h26] at h
  by_cases h27 : p ∈ [0x88, 0x89, 0x8A, 0x8B, 0x8C, 0x8D, 0x8F]
  · rw [if_pos h27] at h
    injection h with hx
    subst hx
    rfl
  rw [if_neg h27] at h
  by_cases h28 : p = 0x8E
  · rw [if_pos h28] at h
    injection h with hx
    subst hx
    rfl
  rw [if_neg h28] at h
  by_cases h29 : p ∈ [0x90, 0x91, 0x92, 0x93, 0x94, 0x95, 0x97]
  · rw [if_pos h29] at h
    injection h with hx
    subst hx
    rfl
  rw [if_neg h29] at h
  by_cases h30 : p = 0x96
  · rw [if_pos h30] at h
    injection h with hx
    subst hx
    rfl
  rw [if_neg h30] at h
  by_cases h31 : p ∈ [0x98, 0x99, 0x9A, 0x9B, 0x9C, 0x9D, 0x9F]
  · rw [if_pos h31] at h
    injection h with hx
    subst hx
    rfl
  rw [if_neg h31] at h
  by_cases h32 : p = 0x9E
  · rw [if_pos h32] at h
    injection h with hx
    subst hx
    rfl
  rw [if_neg h32] at h
  by_cases h33 : p ∈ [0xA0, 0xA1, 0xA2, 0xA3, 0xA4, 0xA5, 0xA7]
  · rw [if_pos h33] at h
    injection h with hx
    subst hx
    rfl
  rw [if_neg h33] at h
  by_cases h34 : p = 0xA6
  · rw [if_pos h34] at h
    injection h with hx
    subst hx
    rfl
  rw [if_neg h34] at h
  by_cases h35 : p ∈ [0xA8, 0xA9, 0xAA, 0xAB, 0xAC, 0xAD, 0xAF]
  · rw [if_pos h35] at h
    injection h with hx
    subst hx
    rfl
  rw [if_neg h35] at h
  by_cases h36 : p = 0xAE
  · rw [if_pos h36] at h
    injection h with hx
    subst hx
    rfl
  rw [if_neg h36] at h
  by_cases h37 : p ∈ [0xB0, 0xB1, 0xB2, 0xB3, 0xB4, 0xB5, 0xB7]
  · rw [if_pos h37] at h
    injection h with hx
    subst hx
    rfl
  rw [if_neg h37] at h
  by_cases h38 : p = 0xB6
  · rw [if_pos h38] at h
    injection h with hx
    subst hx
    rfl
  rw [if_neg h38] at h
  by_cases h39 : p ∈ [0xB8, 0xB9, 0xBA, 0xBB, 0xBC, 0xBD, 0xBF]
  · rw [if_pos h39] at h
    injection h with hx
    subst hx
    rfl
  rw [if_neg h39] at h
  by_cases h40 : p = 0xBE
  · rw [if_pos h40] at h
    injection h with hx
    subst hx
    rfl
  rw [if_neg h40] at h
  by_cases h41 : p ∈ [0xC0, 0xC8, 0xD0, 0xD8]
  · rw [if_pos h41] at h
    injection h with hx
    subst hx
    rfl
  rw [if_neg h41] at h
  by_cases h42 : p ∈ [0xC1, 0xD1, 0xE1, 0xF1]
  · rw [if_pos h42] at h
    injection h with hx
    subst hx
    rfl
  rw [if_neg h42] at h
  by_cases h43 : p ∈ [0xC2, 0xCA, 0xD2, 0xDA]
  · rw [if_pos h43] at h
    injection h with hx
    subst hx
    rfl
  rw [if_neg h43] at h
  by_cases h44 : p = 0xC3
  · rw [if_pos h44] at h
    injection h with hx
    subst hx
    rfl
  rw [if_neg h44] at h
  by_cases h45 : p ∈ [0xC4, 0xCC, 0xD4, 0xDC]
  · rw [if_pos h45] at h
    injection h with hx
    subst hx
    rfl
  rw [if_neg h45] at h
  by_cases h46 : p ∈ [0xC5, 0xD5, 0xE5, 0xF5]
  · rw [if_pos h46] at h
    injection h with hx
    subst hx
    rfl
  rw [if_neg h46] at h
  by_cases h47 : p = 0xC6
  · rw [if_pos h47] at h
    injection h with hx
    subst hx
    rfl
  rw [if_neg h47] at h
  by_cases h48 : p ∈ [0xC7, 0xCF, 0xD7, 0xDF, 0xE7, 0xEF, 0xF7, 0xFF]
  · rw [if_pos h48] at h
    injection h with hx
    subst hx
    rfl
  rw [if_neg h48] at h
  by_cases h49 : p = 0xC9
  · rw [if_pos h49] at h
    injection h with hx
    subst hx
    rfl
  rw [if_neg h49] at h
  by_cases h50 : p = 0xCB
  · rw [if_pos h50] at h
    exact absurd h (by simp)
  rw [if_neg h50] at h
  by_cases h51 : p = 0xCD
  · rw [if_pos h51] at h
    injection h with hx
    subst hx
    rfl
  rw [if_neg h51] at h
  by_cases h52 : p = 0xCE
  · rw [if_pos h52] at h
    injection h with hx
    subst hx
    rfl
  rw [if_neg h52] at h
  by_cases h53 : p = 0xD6
  · rw [if_pos h53] at h
    injection h with hx
    subst hx
    rfl
  rw [if_neg h53] at h
  by_cases h54 : p = 0xD9
  · rw [if_pos h54] at h
    injection h with hx
    subst hx
    rfl
  rw [if_neg h54] at h
  by_cases h55 : p = 0xDE
  · rw [if_pos h55] at h
    injection h with hx
    subst hx
    rfl
  rw [if_neg h55] at h
  by_cases h56 : p = 0xE0
  · rw [if_pos h56] at h
    injection h with hx
    subst hx
    rfl
  rw [if_neg h56] at h
  by_cases h57 : p = 0xE2
  · rw [if_pos h57] at h
    injection h with hx
    subst hx
    rfl
  rw [if_neg h57] at h
  by_cases h58 : p = 0xE6
  · rw [if_pos h58] at h
    injection h with hx
    subst hx
    rfl
  rw [if_neg h58] at h
  by_cases h59 : p = 0xE8
  · rw [if_pos h59] at h
    injection h with hx
    subst hx
    rfl
  rw [if_neg h59] at h
  by_cases h60 : p = 0xE9
  · rw [if_pos h60] at h
    injection h with hx
    subst hx
    rfl
  rw [if_neg h60] at h
  by_cases h61 : p = 0xEA
  · rw [if_pos h61] at h
    injection h with hx
    subst hx
    rfl
  rw [if_neg h61] at h
  by_cases h62 : p = 0xEE
  · rw [if_pos h62] at h
    injection h with hx
    subst hx
    rfl
  rw [if_neg h62] at h
  by_cases h63 : p = 0xF0
  · rw [if_pos h63] at h
    injection h with hx
    subst hx
    rfl
  rw [if_neg h63] at h
  by_cases h64 : p = 0xF2
  · rw [if_pos h64] at h
    injection h with hx
    subst hx
    rfl
  rw [if_neg h64] at h
  by_cases h65 : p = 0xF3
  · rw [if_pos h65] at h
    injection h with hx
    subst hx
    rfl
  rw [if_neg h65] at h
  by_cases h66 : p = 0xF6
  · rw [if_pos h66] at h
    injection h with hx
    subst hx
    rfl
  rw [if_neg h66] at h
  by_cases h67 : p = 0xF8
  · rw [if_pos h67] at h
    injection h with hx
    subst hx
    rfl
  rw [if_neg h67] at h
  by_cases h68 : p = 0xF9
  · rw [if_pos h68] at h
    injection h with hx
    subst hx
    rfl
  rw [if_neg h68] at h
  by_cases h69 : p = 0xFA
  · rw [if_pos h69] at h
    injection h with hx
    subst hx
    rfl
  rw [if_neg h69] at h
  by_cases h70 : p = 0xFB
  · rw [if_pos h70] at h
    injection h with hx
    subst hx
    rfl
  rw [if_neg h70] at h
  by_cases h71 : p = 0xFE
  · rw [if_pos h71] at h
    injection h with hx
    subst hx
    rfl
  rw [if_neg h71] at h
  exact absurd h (by simp)

/-- C8. Prefix fidelity: whenever `from_memory(pc, mem)` returns an
operation, its `prefix` field equals the byte read at `pc`. -/
theorem fromMemory_prefix_fidelity (pc : Nat) (m : Memory) (op : Operation)
    (h : Operation.fromMemory pc m = Except.ok op) :
    op.prefixByte = m.readByte pc :=
  decode_ok_prefixByte (m.readByte pc) (m.readByte (pc + 1))
    (m.readWord (pc + 1)) op h

/-- Witness for C8's theorem: decoding `Nop` at `pc = 0` of the
all-zero fragment. -/
theorem fromMemory_prefix_fidelity_witness :
    (⟨Opcode.Nop, 0⟩ : Operation).prefixByte = (opFragment 0).readByte 0 :=
  fromMemory_prefix_fidelity 0 (opFragment 0) ⟨Opcode.Nop, 0⟩ rfl

set_option maxRecDepth 100000 in
/-- C2 / code evaluation.  On the image `[p, 0x12, 0x34]` the decoder
fails with `UnknownOpcodePrefix(p)` exactly for the 28 bytes of
`decoderGapBytes` — not just the eleven of the claim — and returns `Ok`
exactly for every other byte except `0xCB` (whose stubbed CB table
fails with `UnknownAluOpcodePrefix(0x12)`).  In particular `0x18` is
outside the claim's excluded set yet fails to decode. -/
theorem decoder_gap_characterization :
    ∀ p, p < 256 →
      (unknownOpcodeErrByte (Operation.fromMemory 0 (opFragment p)) = some p ↔
        p ∈ decoderGapBytes) ∧
      (isOkResult (Operation.fromMemory 0 (opFragment p)) = true ↔
        (p ∉ decoderGapBytes ∧ p ≠ 0xCB)) := by
  decide

/-- Witness for C2's theorem: `0x18` (unconditional JR, not among the
claim's excluded bytes) is rejected with `UnknownOpcodePrefix(0x18)`. -/
theorem decoder_gap_characterization_witness :
    unknownOpcodeErrByte (Operation.fromMemory 0 (opFragment 0x18)) = some 0x18 :=
  ((decoder_gap_characterization 0x18 (by decide)).1).mpr (by decide)


/-- Helper: folding 8-bit wrapping addition of `d` over a list is the
plain sum taken mod 256. -/
theorem foldl_wrapping_add_eq (d : Nat → Nat) (l : List Nat) :
    ∀ acc, acc < 256 →
      l.foldl (fun checksum index => (checksum + d index) % 256) acc =
        (acc + (l.map d).sum) % 256 := by
  induction l with
  | nil =>
    intro acc h
    simp [Nat.mod_eq_of_lt h]
  | cons b t ih =>
    intro acc h
    simp only [List.foldl_cons, List.map_cons, List.sum_cons]
    rw [ih ((acc + d b) % 256) (Nat.mod_lt _ (by omega))]
    omega

/-- Helper: a pointwise update at `j` is invisible to `map` over a list
avoiding `j`. -/
theorem map_update_not_mem (d : Nat → Nat) (w j : Nat) :
    ∀ l : List Nat, j ∉ l →
      l.map (fun i => if i = j then w else d i) = l.map d := by
  intro l
  induction l with
  | nil => intro _; rfl
  | cons a t ih =>
    intro h
    simp only [List.mem_cons, not_or] at h
    simp only [List.map_cons]
    have h1 := h.1
    rw [if_neg (by omega), ih h.2]

/-- Helper: replacing the byte at `j ∈ range' s n` by `w` shifts the
mapped sum by `w - d j`. -/
theorem sum_map_update_range (d : Nat → Nat) (w : Nat) :
    ∀ (n s j : Nat), s ≤ j → j < s + n →
      ((List.range' s n).map (fun i => if i = j then w else d i)).sum + d j =
        ((List.range' s n).map d).sum + w := by
  intro n
  induction n with
  | zero =>
    intro s j h1 h2
    omega
  | succ n ih =>
    intro s j h1 h2
    rw [List.range'_succ]
    simp only [List.map_cons, List.sum_cons]
    by_cases hsj : s = j
    · subst hsj
      have hnm : s ∉ List.range' (s + 1) n := by
        intro hm
        rw [List.mem_range'_1] at hm
        omega
      rw [if_pos rfl, map_update_not_mem d w s _ hnm]
      omega
    · rw [if_neg hsj]
      have hrec := ih (s + 1) j (by omega) (by omega)
      omega

/-- Helper: the header-checksum test in closed form. -/
theorem hasValidHeaderChecksum_iff (c : Cartridge) :
    c.hasValidHeaderChecksum = true ↔
      (0x19 + ((List.range' 0x0134 26).map c.data).sum) % 256 = 0 := by
  unfold Cartridge.hasValidHeaderChecksum
  rw [foldl_wrapping_add_eq c.data _ 0x19 (by omega)]
  simp [beq_iff_eq]

/-- C7. For a cartridge of length ≥ 0x8000 with byte-valued entries,
`has_valid_header_checksum` is true iff the 8-bit wrapping sum of the
bytes at `0x0134..=0x014D` seeded with `0x19` is zero; and changing any
single byte in that range to a different byte value makes it false. -/
theorem header_checksum_law (c : Cartridge)
    (_hsize : 0x8000 ≤ c.size) (hbytes : ∀ i, c.data i < 256) :
    (c.hasValidHeaderChecksum = true ↔
      (0x19 + ((List.range' 0x0134 26).map c.data).sum) % 256 = 0) ∧
    (∀ j w, 0x0134 ≤ j → j ≤ 0x014D → w < 256 → w ≠ c.data j →
      c.hasValidHeaderChecksum = true →
      Cartridge.hasValidHeaderChecksum
        ⟨fun i => if i = j then w else c.data i, c.size⟩ = false) := by
  refine ⟨hasValidHeaderChecksum_iff c, ?_⟩
  intro j w hj1 hj2 hw hne hvalid
  rw [hasValidHeaderChecksum_iff c] at hvalid
  rw [← Bool.not_eq_true]
  intro hcontra
  rw [hasValidHeaderChecksum_iff] at hcontra
  dsimp only at hcontra
  have hsum := sum_map_update_range c.data w 26 0x0134 j hj1 (by omega)
  have hdj := hbytes j
  omega

/-- Witness for C7's theorem: `sampleCartridge` passes the checksum,
and zeroing its byte at `0x014D` fails it. -/
theorem header_checksum_law_witness :
    Cartridge.hasValidHeaderChecksum
      ⟨fun i => if i = 0x014D then 0 else sampleCartridge.data i,
        sampleCartridge.size⟩ = false :=
  (header_checksum_law sampleCartridge (by decide)
      (fun i => by simp only [sampleCartridge]; split <;> omega)).2
    0x014D 0 (by decide) (by decide) (by decide) (by decide) (by decide)

/-- C10. If the name bytes (0x0134..=0x0143, truncated at the first
zero) are valid UTF-8, `Cartridge::name` returns exactly them and its
`unwrap` cannot panic; without that precondition the panic is reachable
— for some cartridge the decode fails. -/
theorem name_utf8_safety :
    (∀ c : Cartridge, 0x8000 ≤ c.size → validUtf8 c.nameBytes = true →
      c.name = some c.nameBytes) ∧
    (∃ c : Cartridge, 0x8000 ≤ c.size ∧ c.name = none) := by
  constructor
  · intro c _ h
    unfold Cartridge.name
    rw [if_pos h]
  · refine ⟨⟨fun i => if i = 0x0134 then 0x80 else 0, 0x8000⟩, le_refl _, ?_⟩
    decide

/-- Witness for C10's theorem: an ASCII name byte (`0x41` = 'A') at
`0x0134` decodes successfully. -/
theorem name_utf8_safety_witness :
    Cartridge.name ⟨fun i => if i = 0x0134 then 0x41 else 0, 0x8000⟩ =
      some (Cartridge.nameBytes ⟨fun i => if i = 0x0134 then 0x41 else 0, 0x8000⟩) :=
  name_utf8_safety.1 ⟨fun i => if i = 0x0134 then 0x41 else 0, 0x8000⟩
    (by decide) (by decide)
